import Mathlib

/-!
Verification development for the hex-terrain generation core of the
hex-game-2025 repository.

The JavaScript sources are shallowly embedded as Lean definitions:

* machine reals (JS doubles) are modelled as `ℚ` for the geometry pipeline;
  the transcendental primitives the code calls (Math.cos / Math.sin of the six
  fixed vertex angles, Math.sqrt 3) are abstracted as parameters in `JsMath`,
  and the noise-derived perturbation functions of PerturbationUtils.js are
  abstracted as the function fields of `PerturbCtx`.  Every claim settled over
  this part of the embedding is a structural identity that holds for each
  possible value of those primitives, which covers in particular the concrete
  double values the JS engine computes.
* the Perlin noise generator (noise.js) is embedded twice: a generic, pure
  version (`pureGet`) and a stateful version threading the gradient/memory
  caches (`getS`), generic over a linear ordered field so that it can be
  instantiated both at `ℚ` (computable, for evaluation) and at `ℝ` with the
  genuine `Real.sin`/`Real.cos` formulas (for the range analysis).
* JS `%` on numbers truncates toward zero, so `col % 2` is modelled by
  `Int.tmod`.
-/

/-- The six hex directions of HexUtils.getDirectionMaps (HexUtils.js). -/
inductive Dir : Type
  | N | NE | SE | S | SW | NW
deriving DecidableEq, Repr

open Dir

/-- Opposite direction map, HexUtils.js lines 165-172. -/
def oppositeDirection : Dir → Dir
  | N => S
  | NE => SW
  | SE => NW
  | S => Dir.N
  | SW => NE
  | NW => SE

/-- Clockwise direction map, HexUtils.js lines 175-182. -/
def clockwiseDirection : Dir → Dir
  | N => NE
  | NE => SE
  | SE => S
  | S => SW
  | SW => NW
  | NW => Dir.N

/-- Edge vertex map, HexUtils.js lines 155-162: the pair of rim-vertex
indices bounding a cell's edge in the given direction. -/
def edgeVertexMap : Dir → Fin 6 × Fin 6
  | N => (4, 5)
  | NE => (5, 0)
  | SE => (0, 1)
  | S => (1, 2)
  | SW => (2, 3)
  | NW => (3, 4)

/-- JS `col % 2 === 1` (JS `%` truncates toward zero, hence `Int.tmod`);
the `isOddColumn` test of both getNeighborCoords copies. -/
def isOddColumn (col : ℤ) : Prop := col.tmod 2 = 1

instance (col : ℤ) : Decidable (isOddColumn col) := by
  unfold isOddColumn; infer_instance

/-- HexUtils.getNeighborCoords (HexUtils.js lines 33-70): the direction
switch for a flat-topped offset grid.  This copy performs NO bounds check;
it returns the raw table result.  (The same switch block appears verbatim
in HexGenerator.getNeighborCoords, hexGenerator.js lines 39-73, which is
embedded below as `HexGenerator.getNeighborCoords` by adding the bounds
check of its lines 75-78.) -/
def HexUtils.getNeighborCoords (c : ℤ × ℤ) (d : Dir) : ℤ × ℤ :=
  let col := c.1
  let row := c.2
  match d with
  | N => (col, row - 1)
  | NE => (col + 1, if isOddColumn col then row else row - 1)
  | SE => (col + 1, if isOddColumn col then row + 1 else row)
  | S => (col, row + 1)
  | SW => (col - 1, if isOddColumn col then row + 1 else row)
  | NW => (col - 1, if isOddColumn col then row else row - 1)

/-- The in-bounds predicate used by hexGenerator.js lines 75-78
(negation of `newCol < 0 || newCol >= gridSize || newRow < 0 || newRow >= gridSize`). -/
def coordsInBounds (gridSize : ℤ) (c : ℤ × ℤ) : Prop :=
  0 ≤ c.1 ∧ c.1 < gridSize ∧ 0 ≤ c.2 ∧ c.2 < gridSize

instance (gs : ℤ) (c : ℤ × ℤ) : Decidable (coordsInBounds gs c) := by
  unfold coordsInBounds; infer_instance

/-- HexGenerator.getNeighborCoords (hexGenerator.js lines 39-81): the same
direction switch followed by the bounds check that returns null when the
result leaves `[0, gridSize)` in either axis. -/
def HexGenerator.getNeighborCoords (gridSize : ℤ) (c : ℤ × ℤ) (d : Dir) :
    Option (ℤ × ℤ) :=
  let n := HexUtils.getNeighborCoords c d
  if n.1 < 0 ∨ gridSize ≤ n.1 ∨ n.2 < 0 ∨ gridSize ≤ n.2 then none else some n

theorem tmod_two_cases (col : ℤ) (h : 0 ≤ col) :
    col.tmod 2 = 0 ∨ col.tmod 2 = 1 := by
  rw [Int.tmod_eq_emod h (by norm_num)]
  omega

theorem tmod_two_of_even (col : ℤ) (h : 0 ≤ col) (he : ¬ isOddColumn col) :
    col.tmod 2 = 0 := by
  rcases tmod_two_cases col h with h0 | h1
  · exact h0
  · exact absurd h1 he

theorem isOdd_succ (col : ℤ) (h : 0 ≤ col) :
    isOddColumn (col + 1) ↔ ¬ isOddColumn col := by
  unfold isOddColumn
  rw [Int.tmod_eq_emod h (by norm_num), Int.tmod_eq_emod (by omega) (by norm_num)]
  omega

theorem isOdd_pred (col : ℤ) (h : 1 ≤ col) :
    isOddColumn (col - 1) ↔ ¬ isOddColumn col := by
  unfold isOddColumn
  rw [Int.tmod_eq_emod (by omega) (by norm_num),
    Int.tmod_eq_emod (by omega) (by norm_num)]
  omega

/-- Claim C5 counterexample: the bounds check is not applied uniformly.
HexUtils.getNeighborCoords ((0,0), N) returns the off-grid coordinate
(0,-1) rather than a no-neighbor result. -/
theorem bounds_check_not_uniform_cex :
    HexUtils.getNeighborCoords (0, 0) Dir.N = (0, -1) ∧
    ¬ coordsInBounds 16 (0, -1) :=
  ⟨rfl, by decide⟩

/-- Claim C5 (amended): HexGenerator.getNeighborCoords (hexGenerator.js)
returns none exactly when the direction-table result falls outside
[0, gridSize) in either axis, and otherwise returns exactly the table
result; the bounds check is however NOT applied uniformly in the system:
HexUtils.getNeighborCoords (HexUtils.js) returns the raw table result with
no bounds check for every input (see the counterexample). -/
theorem neighbor_bounds_check_split :
    (∀ (gs : ℤ) (c : ℤ × ℤ) (d : Dir),
      HexGenerator.getNeighborCoords gs c d = none ↔
        ¬ coordsInBounds gs (HexUtils.getNeighborCoords c d)) ∧
    (∀ (gs : ℤ) (c : ℤ × ℤ) (d : Dir),
      HexGenerator.getNeighborCoords gs c d = none ∨
      HexGenerator.getNeighborCoords gs c d =
        some (HexUtils.getNeighborCoords c d)) := by
  constructor
  · intro gs c d
    simp only [HexGenerator.getNeighborCoords, coordsInBounds]
    split_ifs with h
    · simp only [true_iff]
      omega
    · simp only [reduceCtorEq, false_iff, not_not]
      omega
  · intro gs c d
    simp only [HexGenerator.getNeighborCoords]
    split_ifs with h
    · exact Or.inl rfl
    · exact Or.inr rfl

/-- Claim C6: oppositeDirection is an involution, and for any interior
coordinate (both c and its d-neighbor within [0, gridSize) on both axes)
stepping to the neighbor and back with the opposite direction returns the
original coordinate, in both column-parity cases. -/
theorem direction_involution_roundtrip :
    (∀ d, oppositeDirection (oppositeDirection d) = d) ∧
    (∀ (gs : ℤ) (c : ℤ × ℤ) (d : Dir),
      coordsInBounds gs c →
      coordsInBounds gs (HexUtils.getNeighborCoords c d) →
      HexUtils.getNeighborCoords (HexUtils.getNeighborCoords c d)
        (oppositeDirection d) = c) := by
  constructor
  · intro d; cases d <;> rfl
  · intro gs c d hc hn
    obtain ⟨col, row⟩ := c
    have hcol : 0 ≤ col := hc.1
    have e1 : col.tmod 2 = col % 2 := Int.tmod_eq_emod hcol (by norm_num)
    have e2 : (col + 1).tmod 2 = (col + 1) % 2 :=
      Int.tmod_eq_emod (by omega) (by norm_num)
    cases d
    case N =>
      simp only [HexUtils.getNeighborCoords, oppositeDirection]
      refine Prod.ext rfl ?_
      omega
    case S =>
      simp only [HexUtils.getNeighborCoords, oppositeDirection]
      refine Prod.ext rfl ?_
      omega
    case NE =>
      simp only [HexUtils.getNeighborCoords, oppositeDirection, isOddColumn,
        e1, e2, Prod.mk.injEq]
      split_ifs <;> omega
    case SE =>
      simp only [HexUtils.getNeighborCoords, oppositeDirection, isOddColumn,
        e1, e2, Prod.mk.injEq]
      split_ifs <;> omega
    case SW =>
      have hcol1 : 0 ≤ col - 1 := by
        have := hn.1
        simp only [HexUtils.getNeighborCoords] at this
        omega
      have e3 : (col - 1).tmod 2 = (col - 1) % 2 :=
        Int.tmod_eq_emod hcol1 (by norm_num)
      simp only [HexUtils.getNeighborCoords, oppositeDirection, isOddColumn,
        e1, e3, Prod.mk.injEq]
      split_ifs <;> omega
    case NW =>
      have hcol1 : 0 ≤ col - 1 := by
        have := hn.1
        simp only [HexUtils.getNeighborCoords] at this
        omega
      have e3 : (col - 1).tmod 2 = (col - 1) % 2 :=
        Int.tmod_eq_emod hcol1 (by norm_num)
      simp only [HexUtils.getNeighborCoords, oppositeDirection, isOddColumn,
        e1, e3, Prod.mk.injEq]
      split_ifs <;> omega

/-- World-space point; JS [x, y, z] array triples.  JS doubles are
modelled as rationals; the geometry claims below are structural identities
that hold for every rational (hence every double) value of the abstracted
primitives. -/
structure Vec3 where
  x : ℚ
  y : ℚ
  z : ℚ
deriving DecidableEq, Repr

/-- Transcendental Math primitives used by the vertex pipeline, abstracted
as parameters: cosTable i and sinTable i stand for the doubles
Math.cos((π/180)·60·i) and Math.sin((π/180)·60·i) computed in
HexUtils.getHexVertex, and sqrt3 stands for Math.sqrt(3). -/
structure JsMath where
  cosTable : Fin 6 → ℚ
  sinTable : Fin 6 → ℚ
  sqrt3 : ℚ

/-- Interface of a PerturbationUtils instance (PerturbationUtils.js): the
three noise-derived functions consumed by the geometry pipeline.  They are
deterministic functions of their arguments for a fixed instance (the
underlying PerlinNoise.get is pure despite its memo cache, which is proved
separately below), so they are abstracted as pure function fields. -/
structure PerturbCtx where
  getElevation : ℚ → ℚ → ℚ
  perturbY : ℚ → ℚ → ℚ → ℚ
  perturbXZ : ℚ → ℚ → ℚ × ℚ

/-- HexUtils instance state (HexUtils.js constructor lines 9-25).  The
constructor stores the parameters and a fresh PerturbationUtils instance;
the derived metrics it also stores are exposed as functions below, with
values identical to the stored ones. -/
structure HexUtilsT where
  jsMath : JsMath
  perturbUtils : PerturbCtx
  gridSize : ℤ
  hexSize : ℚ
  hexGap : ℚ

/-- HexUtils.js line 16: effectiveSize = hexSize - hexGap. -/
def HexUtilsT.effectiveSize (h : HexUtilsT) : ℚ := h.hexSize - h.hexGap

/-- HexUtils.js line 19: width = effectiveSize * 2. -/
def HexUtilsT.width (h : HexUtilsT) : ℚ := h.effectiveSize * 2

/-- HexUtils.js line 20: height = sqrt(3) * effectiveSize. -/
def HexUtilsT.height (h : HexUtilsT) : ℚ := h.jsMath.sqrt3 * h.effectiveSize

/-- HexUtils.getHexVertex (HexUtils.js lines 130-144): the rim point at
angle 60°·i from the center, horizontally jittered by perturbXZ at the
vertex position, with height obtained from getElevation and perturbY
evaluated at the CELL CENTER (centerX, centerZ), not at the vertex. -/
def HexUtilsT.getHexVertex (h : HexUtilsT) (centerX centerZ : ℚ) (i : Fin 6) :
    Vec3 :=
  let x := centerX + h.effectiveSize * h.jsMath.cosTable i
  let z := centerZ + h.effectiveSize * h.jsMath.sinTable i
  let p := h.perturbUtils.perturbXZ x z
  let py := h.perturbUtils.getElevation centerX centerZ
  let perturbedElevation := h.perturbUtils.perturbY centerX py centerZ
  ⟨p.1, perturbedElevation, p.2⟩

/-- HexUtils.generateHexVertices (HexUtils.js lines 114-121): the array of
the six rim vertices, indexed clockwise. -/
def HexUtilsT.generateHexVertices (h : HexUtilsT) (centerX centerZ : ℚ) :
    Fin 6 → Vec3 :=
  fun i => h.getHexVertex centerX centerZ i

/-- A HexCell record as built by the generator code. -/
structure Hex where
  gridCoords : ℤ × ℤ
  center : Vec3
  vertices : Fin 6 → Vec3
  elevation : ℚ
  biomeIndex : ℤ
  featureIndex : ℤ

/-- HexUtils.getNeighbor lines 84: colSpacing = width·3/4 + hexGap. -/
def HexUtilsT.colSpacing (h : HexUtilsT) : ℚ := h.width * 3 / 4 + h.hexGap

/-- HexUtils.getNeighbor lines 85: rowSpacing = height + hexGap. -/
def HexUtilsT.rowSpacing (h : HexUtilsT) : ℚ := h.height + h.hexGap

/-- The center position of the cell at grid coordinates c, as computed in
HexUtils.getNeighbor lines 87-88 (the (neighborCol % 2) factor uses the
JS truncating %, hence Int.tmod). -/
def HexUtilsT.centerOf (h : HexUtilsT) (c : ℤ × ℤ) : ℚ × ℚ :=
  ((c.1 : ℚ) * h.colSpacing,
   (c.2 : ℚ) * h.rowSpacing + ((c.1.tmod 2 : ℤ) : ℚ) * (h.rowSpacing / 2))

/-- HexUtils.getNeighbor (HexUtils.js lines 78-106): recomputes a full
HexCell for the neighboring grid position with the closed-form pipeline;
NO bounds check, so it also produces cells for off-grid coordinates.  The
biomeIndex is floor(elevation · 4) of the UN-perturbed elevation while the
elevation and center.y fields hold the perturbY-perturbed value. -/
def HexUtilsT.getNeighbor (h : HexUtilsT) (hex : Hex) (d : Dir) : Hex :=
  let neighborCoords := HexUtils.getNeighborCoords hex.gridCoords d
  let neighborCenterX := (h.centerOf neighborCoords).1
  let neighborCenterZ := (h.centerOf neighborCoords).2
  let elevation := h.perturbUtils.getElevation neighborCenterX neighborCenterZ
  let perturbedElevation :=
    h.perturbUtils.perturbY neighborCenterX elevation neighborCenterZ
  { gridCoords := neighborCoords
    center := ⟨neighborCenterX, perturbedElevation, neighborCenterZ⟩
    vertices := h.generateHexVertices neighborCenterX neighborCenterZ
    elevation := perturbedElevation
    biomeIndex := ⌊elevation * 4⌋
    featureIndex := 0 }

/-- The mesh-generating HexGenerator copy (source part_003, constructor
lines 12-26): owns a HexUtils instance and a SECOND, separate
PerturbationUtils instance of its own. -/
structure HexGenerator3 where
  hexUtils : HexUtilsT
  perturbUtils : PerturbCtx
  gridSize : ℤ
  hexSize : ℚ
  hexGap : ℚ

/-- The part_003 constructor: builds the inner HexUtils from the same
parameters (jm is the ambient Math object, pcUtils the PerturbationUtils
instance created inside HexUtils, pcGen the generator's own instance). -/
def mkHexGenerator3 (jm : JsMath) (pcUtils pcGen : PerturbCtx)
    (gridSize : ℤ) (hexSize hexGap : ℚ) : HexGenerator3 :=
  { hexUtils :=
      { jsMath := jm, perturbUtils := pcUtils, gridSize, hexSize, hexGap }
    perturbUtils := pcGen
    gridSize, hexSize, hexGap }

/-- renderGrid spacing, part_003 lines 48-53: hexWidth = 2·effectiveSize
(this.effectiveSize is the HexUtils one, constructor line 23),
colSpacing = hexWidth·3/4 + hexGap. -/
def HexGenerator3.colSpacing (g : HexGenerator3) : ℚ :=
  2 * g.hexUtils.effectiveSize * 3 / 4 + g.hexGap

/-- renderGrid spacing, part_003 lines 49-53: rowSpacing =
sqrt(3)·effectiveSize + hexGap. -/
def HexGenerator3.rowSpacing (g : HexGenerator3) : ℚ :=
  g.hexUtils.jsMath.sqrt3 * g.hexUtils.effectiveSize + g.hexGap

/-- Cell center as computed in the renderGrid loop, part_003 lines 63-64. -/
def HexGenerator3.centerOf (g : HexGenerator3) (c : ℤ × ℤ) : ℚ × ℚ :=
  ((c.1 : ℚ) * g.colSpacing,
   (c.2 : ℚ) * g.rowSpacing + ((c.1.tmod 2 : ℤ) : ℚ) * (g.rowSpacing / 2))

/-- The hex record built for grid position c in the renderGrid loop,
part_003 lines 66-85: elevation from the generator's own perturbUtils,
vertices from hexUtils.generateHexVertices, biomeIndex =
getBiomeIndex(perturbedElevation, 4) = floor(perturbedElevation·4). -/
def HexGenerator3.cellAt (g : HexGenerator3) (c : ℤ × ℤ) : Hex :=
  let centerX := (g.centerOf c).1
  let centerZ := (g.centerOf c).2
  let elevation := g.perturbUtils.getElevation centerX centerZ
  let perturbedElevation := g.perturbUtils.perturbY centerX elevation centerZ
  { gridCoords := c
    center := ⟨centerX, perturbedElevation, centerZ⟩
    vertices := g.hexUtils.generateHexVertices centerX centerZ
    elevation := perturbedElevation
    biomeIndex := ⌊perturbedElevation * 4⌋
    featureIndex := 0 }

/-- When the generator stores the same hexGap as its HexUtils instance
(which the part_003 constructor guarantees), the renderGrid center formula
and the HexUtils.getNeighbor center formula agree (hexWidth·3/4 + hexGap
versus width·3/4 + hexGap over the same stored parameters). -/
theorem gen3_center_eq (g : HexGenerator3)
    (hgap : g.hexGap = g.hexUtils.hexGap) (c : ℤ × ℤ) :
    g.centerOf c = g.hexUtils.centerOf c := by
  simp only [HexGenerator3.centerOf, HexUtilsT.centerOf,
    HexGenerator3.colSpacing, HexGenerator3.rowSpacing, HexUtilsT.colSpacing,
    HexUtilsT.rowSpacing, HexUtilsT.width, HexUtilsT.height,
    HexUtilsT.effectiveSize, hgap, Prod.mk.injEq]
  constructor <;> ring_nf

/-- Cap-fan positions of part_003 createHexGeometry lines 165-189: the
center point (cell center x/z but the FIRST rim vertex's height, the
"vertices[0][1] is a hack" of line 166-167) followed by the six rim
vertices pushed by the i = 0..5 loop. -/
def capPositions (hex : Hex) : List Vec3 :=
  ⟨hex.center.x, (hex.vertices 0).y, hex.center.z⟩ ::
    [hex.vertices 0, hex.vertices 1, hex.vertices 2,
     hex.vertices 3, hex.vertices 4, hex.vertices 5]

/-- Cap-fan triangles of part_003 lines 183-188: reversed winding
(0, i+2, i+1) for i < 5 and (0, 1, 6) for the closing fan. -/
def capTriangles : List (ℕ × ℕ × ℕ) :=
  [(0, 2, 1), (0, 3, 2), (0, 4, 3), (0, 5, 4), (0, 6, 5), (0, 1, 6)]

/-- The nine positions pushed for one direction of the skirt loop of
part_003 lines 195-277: skirt triangle (v1,v2,nv1), skirt triangle
(v1,nv1,nv2), then corner triangle (v2,nv1,cwv2).  Neighbors come from
HexUtils.getNeighbor with NO bounds or null check. -/
def HexGenerator3.skirtChunk (g : HexGenerator3) (hex : Hex) (d : Dir) :
    List Vec3 :=
  let neighborHex := g.hexUtils.getNeighbor hex d
  let pair := edgeVertexMap d
  let v1 := hex.vertices pair.1
  let v2 := hex.vertices pair.2
  let npair := edgeVertexMap (oppositeDirection d)
  let nv1 := neighborHex.vertices npair.1
  let nv2 := neighborHex.vertices npair.2
  let cwDirection := clockwiseDirection d
  let cwNeighborHex := g.hexUtils.getNeighbor hex cwDirection
  let cwpair := edgeVertexMap (oppositeDirection cwDirection)
  let cwv2 := cwNeighborHex.vertices cwpair.2
  [v1, v2, nv1, v1, nv1, nv2, v2, nv1, cwv2]

/-- Position list of part_003 createHexGeometry: the cap followed by the
chunks for the three processed directions SE, S, SW (line 193), emitted
unconditionally. -/
def HexGenerator3.geometryPositions (g : HexGenerator3) (hex : Hex) :
    List Vec3 :=
  capPositions hex ++ g.skirtChunk hex SE ++ g.skirtChunk hex S ++
    g.skirtChunk hex SW

/-- Triangle index list of part_003 createHexGeometry: the six cap fans,
then for each direction (position bases 7, 16, 25) the two skirt triangles
(b, b+1, b+2), (b+3, b+4, b+5) of lines 225/242 and the corner triangle
(b+6, b+8, b+7) of line 273. -/
def gen3Triangles : List (ℕ × ℕ × ℕ) :=
  capTriangles ++
    [(7, 8, 9), (10, 11, 12), (13, 15, 14),
     (16, 17, 18), (19, 20, 21), (22, 24, 23),
     (25, 26, 27), (28, 29, 30), (31, 33, 32)]

/-- The geometry (positions, triangle index triples) of part_003
createHexGeometry for one hex.  Normals and UVs are also emitted by the
source but are not the subject of any claim. -/
def HexGenerator3.geometry (g : HexGenerator3) (hex : Hex) :
    List Vec3 × List (ℕ × ℕ × ℕ) :=
  (g.geometryPositions hex, gen3Triangles)

/-- Claim C4 (amended): the six rim vertices of a cell all receive the
SAME final height.  getHexVertex evaluates getElevation and perturbY at
the cell center, not at the vertex position, so the height is independent
of the vertex index and equals perturbY(centerX, getElevation(centerX,
centerZ), centerZ); only the horizontal x/z jitter is position-dependent. -/
theorem rim_heights_all_equal (h : HexUtilsT) (centerX centerZ : ℚ)
    (i j : Fin 6) :
    (h.generateHexVertices centerX centerZ i).y =
      (h.generateHexVertices centerX centerZ j).y ∧
    (h.generateHexVertices centerX centerZ i).y =
      h.perturbUtils.perturbY centerX
        (h.perturbUtils.getElevation centerX centerZ) centerZ :=
  ⟨rfl, rfl⟩

/-- Concrete Math-primitive values for evaluation. -/
def jsMathTest : JsMath :=
  { cosTable := fun _ => 1, sinTable := fun _ => 0, sqrt3 := 7 / 4 }

/-- Concrete perturbation functions for evaluation: zero elevation field
and a perturbY that adds 1 to the base height. -/
def perturbTest : PerturbCtx :=
  { getElevation := fun _ _ => 0
    perturbY := fun _ y _ => y + 1
    perturbXZ := fun x z => (x, z) }

/-- Concrete HexUtils instance for evaluation. -/
def hexUtilsTest : HexUtilsT :=
  { jsMath := jsMathTest, perturbUtils := perturbTest, gridSize := 4,
    hexSize := 1, hexGap := 1 / 10 }

/-- Claim C4 counterexample: at a concrete instance, rim vertices 0 and 1
of the cell centered at the origin have EQUAL final heights (both 1),
refuting the claimed pairwise distinctness of the six rim heights. -/
theorem rim_heights_distinct_cex :
    (hexUtilsTest.generateHexVertices 0 0 0).y =
      (hexUtilsTest.generateHexVertices 0 0 1).y ∧
    (hexUtilsTest.generateHexVertices 0 0 0).y = 1 := by
  refine ⟨rfl, ?_⟩
  show (0 : ℚ) + 1 = 1
  norm_num

/-- Concrete part_003 generator instance for evaluation (both
PerturbationUtils instances share the test functions). -/
def gen3Test : HexGenerator3 :=
  mkHexGenerator3 jsMathTest perturbTest perturbTest 4 1 (1 / 10)

/-- A bare hex record at given coordinates (only gridCoords is consulted
by the neighbor computations applied to it). -/
def hexAt (c : ℤ × ℤ) : Hex :=
  { gridCoords := c, center := ⟨0, 0, 0⟩, vertices := fun _ => ⟨0, 0, 0⟩,
    elevation := 0, biomeIndex := 0, featureIndex := 0 }

/-- Claim C10: HexUtils.getNeighbor computes biomeIndex =
floor(4·getElevation(ncx, ncz)) from the UN-perturbed elevation at the
neighbor center while the elevation and center.y fields hold the
perturbY-perturbed value; consequently the stored biomeIndex in general
differs both from floor(4·elevation-field) and from the biomeIndex the
grid-building pass (part_003 renderGrid, which classifies by the perturbed
elevation) assigns to the same coordinates, as the concrete instance
shows. -/
theorem neighbor_biome_from_unperturbed :
    (∀ (h : HexUtilsT) (hex : Hex) (d : Dir),
      (h.getNeighbor hex d).biomeIndex =
        ⌊h.perturbUtils.getElevation
            (h.centerOf (HexUtils.getNeighborCoords hex.gridCoords d)).1
            (h.centerOf (HexUtils.getNeighborCoords hex.gridCoords d)).2 * 4⌋ ∧
      (h.getNeighbor hex d).elevation =
        h.perturbUtils.perturbY
          (h.centerOf (HexUtils.getNeighborCoords hex.gridCoords d)).1
          (h.perturbUtils.getElevation
            (h.centerOf (HexUtils.getNeighborCoords hex.gridCoords d)).1
            (h.centerOf (HexUtils.getNeighborCoords hex.gridCoords d)).2)
          (h.centerOf (HexUtils.getNeighborCoords hex.gridCoords d)).2 ∧
      (h.getNeighbor hex d).center.y = (h.getNeighbor hex d).elevation) ∧
    ((hexUtilsTest.getNeighbor (hexAt (0, 0)) Dir.SE).biomeIndex ≠
        ⌊(hexUtilsTest.getNeighbor (hexAt (0, 0)) Dir.SE).elevation * 4⌋ ∧
      (hexUtilsTest.getNeighbor (hexAt (0, 0)) Dir.SE).biomeIndex ≠
        (gen3Test.cellAt
          (hexUtilsTest.getNeighbor (hexAt (0, 0)) Dir.SE).gridCoords).biomeIndex) := by
  refine ⟨fun _ _ _ => ⟨rfl, rfl, rfl⟩, ?_, ?_⟩
  · show ⌊(0 : ℚ) * 4⌋ ≠ ⌊((0 : ℚ) + 1) * 4⌋
    norm_num
  · show ⌊(0 : ℚ) * 4⌋ ≠ ⌊((0 : ℚ) + 1) * 4⌋
    norm_num

/-- The rim-vertex array recomputed by HexUtils.getNeighbor for a
neighboring position coincides with the array the renderGrid loop builds
for the cell at that position: both funnel through generateHexVertices at
the same center. -/
theorem gen3_neighbor_vertices (g : HexGenerator3)
    (hgap : g.hexGap = g.hexUtils.hexGap) (hex : Hex) (d : Dir) :
    (g.hexUtils.getNeighbor hex d).vertices =
      (g.cellAt (HexUtils.getNeighborCoords hex.gridCoords d)).vertices := by
  show g.hexUtils.generateHexVertices
      (g.hexUtils.centerOf (HexUtils.getNeighborCoords hex.gridCoords d)).1
      (g.hexUtils.centerOf (HexUtils.getNeighborCoords hex.gridCoords d)).2 =
    g.hexUtils.generateHexVertices
      (g.centerOf (HexUtils.getNeighborCoords hex.gridCoords d)).1
      (g.centerOf (HexUtils.getNeighborCoords hex.gridCoords d)).2
  rw [gen3_center_eq g hgap]

/-- The position index at which direction d's skirt chunk starts inside
the geometry position list of part_003 createHexGeometry (cap holds
indices 0-6, then nine positions per processed direction). -/
def chunkBase : Dir → ℕ
  | SE => 7
  | S => 16
  | SW => 25
  | _ => 0

/-- Claim C1: seam closure.  In a part_003 build (one generator instance),
for every cell c and every interior edge toward its SE, S or SW neighbor,
the six skirt positions emitted for that edge (v1, v2, nv1, v1, nv1, nv2)
are exactly the rim positions already present in the two cells' own cap
fans: the cell's rim vertices at the edgeVertexMap d indices and the
neighbor cell's rim vertices at the edgeVertexMap (opposite d) indices, at
cap positions 1+index of each cell's own geometry.  The skirt introduces
no position differing from the emitted rim positions. -/
theorem seam_closure (jm : JsMath) (pcU pcG : PerturbCtx) (gs : ℤ)
    (hs gap : ℚ) (c : ℤ × ℤ) (d : Dir)
    (hd : d = SE ∨ d = S ∨ d = SW)
    (hc : coordsInBounds gs c)
    (hn : coordsInBounds gs (HexUtils.getNeighborCoords c d)) :
    let g := mkHexGenerator3 jm pcU pcG gs hs gap
    let P := g.geometryPositions (g.cellAt c)
    let NP := g.geometryPositions
      (g.cellAt (HexUtils.getNeighborCoords c d))
    let b := chunkBase d
    P.get? b = P.get? (1 + (edgeVertexMap d).1) ∧
    P.get? (b + 1) = P.get? (1 + (edgeVertexMap d).2) ∧
    P.get? (b + 2) = NP.get? (1 + (edgeVertexMap (oppositeDirection d)).1) ∧
    P.get? (b + 3) = P.get? (1 + (edgeVertexMap d).1) ∧
    P.get? (b + 4) = NP.get? (1 + (edgeVertexMap (oppositeDirection d)).1) ∧
    P.get? (b + 5) = NP.get? (1 + (edgeVertexMap (oppositeDirection d)).2) := by
  intro g P NP b
  have hv := gen3_neighbor_vertices g rfl (g.cellAt c) d
  rcases hd with rfl | rfl | rfl
  · refine ⟨rfl, rfl, ?_, rfl, ?_, ?_⟩
    · show some ((g.hexUtils.getNeighbor (g.cellAt c) SE).vertices 3) =
        some ((g.cellAt (HexUtils.getNeighborCoords c SE)).vertices 3)
      rw [hv]
      rfl
    · show some ((g.hexUtils.getNeighbor (g.cellAt c) SE).vertices 3) =
        some ((g.cellAt (HexUtils.getNeighborCoords c SE)).vertices 3)
      rw [hv]
      rfl
    · show some ((g.hexUtils.getNeighbor (g.cellAt c) SE).vertices 4) =
        some ((g.cellAt (HexUtils.getNeighborCoords c SE)).vertices 4)
      rw [hv]
      rfl
  · refine ⟨rfl, rfl, ?_, rfl, ?_, ?_⟩
    · show some ((g.hexUtils.getNeighbor (g.cellAt c) S).vertices 4) =
        some ((g.cellAt (HexUtils.getNeighborCoords c S)).vertices 4)
      rw [hv]
      rfl
    · show some ((g.hexUtils.getNeighbor (g.cellAt c) S).vertices 4) =
        some ((g.cellAt (HexUtils.getNeighborCoords c S)).vertices 4)
      rw [hv]
      rfl
    · show some ((g.hexUtils.getNeighbor (g.cellAt c) S).vertices 5) =
        some ((g.cellAt (HexUtils.getNeighborCoords c S)).vertices 5)
      rw [hv]
      rfl
  · refine ⟨rfl, rfl, ?_, rfl, ?_, ?_⟩
    · show some ((g.hexUtils.getNeighbor (g.cellAt c) SW).vertices 5) =
        some ((g.cellAt (HexUtils.getNeighborCoords c SW)).vertices 5)
      rw [hv]
      rfl
    · show some ((g.hexUtils.getNeighbor (g.cellAt c) SW).vertices 5) =
        some ((g.cellAt (HexUtils.getNeighborCoords c SW)).vertices 5)
      rw [hv]
      rfl
    · show some ((g.hexUtils.getNeighbor (g.cellAt c) SW).vertices 0) =
        some ((g.cellAt (HexUtils.getNeighborCoords c SW)).vertices 0)
      rw [hv]
      rfl

/-- Witness for C1: the seam property evaluated for cell (1,1), direction
S, on a 4-grid with the concrete test primitives. -/
theorem seam_closure_witness :
    ((Dir.S = SE ∨ Dir.S = Dir.S ∨ Dir.S = SW) ∧
      coordsInBounds 4 ((1 : ℤ), (1 : ℤ)) ∧
      coordsInBounds 4 (HexUtils.getNeighborCoords (1, 1) Dir.S)) ∧
    (let g := mkHexGenerator3 jsMathTest perturbTest perturbTest 4 1 (1 / 10)
     let P := g.geometryPositions (g.cellAt (1, 1))
     let NP := g.geometryPositions
       (g.cellAt (HexUtils.getNeighborCoords (1, 1) Dir.S))
     let b := chunkBase Dir.S
     P.get? b = P.get? (1 + (edgeVertexMap Dir.S).1) ∧
     P.get? (b + 1) = P.get? (1 + (edgeVertexMap Dir.S).2) ∧
     P.get? (b + 2) =
       NP.get? (1 + (edgeVertexMap (oppositeDirection Dir.S)).1) ∧
     P.get? (b + 3) = P.get? (1 + (edgeVertexMap Dir.S).1) ∧
     P.get? (b + 4) =
       NP.get? (1 + (edgeVertexMap (oppositeDirection Dir.S)).1) ∧
     P.get? (b + 5) =
       NP.get? (1 + (edgeVertexMap (oppositeDirection Dir.S)).2)) :=
  ⟨⟨Or.inr (Or.inl rfl), by decide, by decide⟩,
    seam_closure jsMathTest perturbTest perturbTest 4 1 (1 / 10) (1, 1) Dir.S
      (Or.inr (Or.inl rfl)) (by decide) (by decide)⟩

/-- Witness for C6: the round trip evaluated at the interior coordinate
(1,1) of a 4-grid with direction SE. -/
theorem direction_involution_roundtrip_witness :
    coordsInBounds 4 ((1 : ℤ), (1 : ℤ)) ∧
    coordsInBounds 4 (HexUtils.getNeighborCoords (1, 1) Dir.SE) ∧
    HexUtils.getNeighborCoords (HexUtils.getNeighborCoords (1, 1) Dir.SE)
      (oppositeDirection Dir.SE) = (1, 1) :=
  ⟨by decide, by decide,
    direction_involution_roundtrip.2 4 (1, 1) Dir.SE (by decide) (by decide)⟩

/-- HexGenerator.getNeighbor (hexGenerator.js lines 90-101): bounds-checked
coordinate computation followed by a search of the materialized grid.  An
absent result (out-of-bounds coordinates, or no cell with those
coordinates in the grid — JS undefined) is a falsy no-neighbor value at
every call site.  Only the gridCoords field of the argument hex is
consulted. -/
def HexGenerator.getNeighbor (gridSize : ℤ) (hex : Hex) (grid : List Hex)
    (d : Dir) : Option Hex :=
  match HexGenerator.getNeighborCoords gridSize hex.gridCoords d with
  | none => none
  | some nc => grid.find? (fun h => h.gridCoords == nc)

/-- Insertion into a coordinate list sorted by a fixed total order.  Models
the canonical corner id of part_004 lines 236-241: the JS code sorts the
three cells' "col,row" strings and joins them, so two triples receive
equal ids exactly when they are the same multiset of coordinates — which
the sorted triple below reproduces (for the coordinates that reach this
code all components are nonnegative, making the string encoding
injective). -/
def insertCoord (a : ℤ × ℤ) : List (ℤ × ℤ) → List (ℤ × ℤ)
  | [] => [a]
  | b :: l =>
    if a.1 < b.1 ∨ (a.1 = b.1 ∧ a.2 ≤ b.2) then a :: b :: l
    else b :: insertCoord a l

/-- Canonical corner id: the sorted triple of the three adjacent cells'
grid coordinates (part_004 lines 236-241). -/
def cornerId (a b c : ℤ × ℤ) : List (ℤ × ℤ) :=
  insertCoord a (insertCoord b (insertCoord c []))

/-- Per-cell geometry accumulator of HexRenderer.createHexGeometry
(part_004): positions, triangle index triples, and the contents of the
processedConnections set, which doubles as the record of emitted corner
triangles since an id is added exactly when a corner triangle is emitted.
The set is created anew inside every createHexGeometry call (line 152). -/
structure RGeom where
  positions : List Vec3
  triangles : List (ℕ × ℕ × ℕ)
  corners : List (List (ℤ × ℤ))

/-- Cap fan of part_004 lines 111-149: the center point uses the average
of the rim x and z coordinates and the FIRST rim vertex's height
("All vertices have the same elevation", line 113); winding (0, i+1, i+2)
and (0, 6, 1) for the closing fan. -/
def rendererCap (hex : Hex) : RGeom :=
  let vs := [hex.vertices 0, hex.vertices 1, hex.vertices 2,
             hex.vertices 3, hex.vertices 4, hex.vertices 5]
  let centerX := (vs.map Vec3.x).sum / 6
  let centerZ := (vs.map Vec3.z).sum / 6
  { positions := ⟨centerX, (hex.vertices 0).y, centerZ⟩ :: vs
    triangles := [(0, 1, 2), (0, 2, 3), (0, 3, 4), (0, 4, 5), (0, 5, 6), (0, 6, 1)]
    corners := [] }

/-- One direction of the skirt loop of part_004 lines 158-276.  The
neighbor comes from HexGenerator.getNeighbor on a DEFAULT-constructed
generator (line 109: new HexGenerator() with default gridSize = 16), so
the bounds check uses 16 while grid membership is decided by the find over
the actual grid; an absent neighbor skips the direction entirely, an
absent clockwise neighbor skips only the corner triangle, and a corner id
already in the per-call processedConnections set suppresses the corner
triangle. -/
def rendererStep (grid : List Hex) (hex : Hex) (st : RGeom) (d : Dir) :
    RGeom :=
  match HexGenerator.getNeighbor 16 hex grid d with
  | none => st
  | some neighbor =>
    let pair := edgeVertexMap d
    let v1 := hex.vertices pair.1
    let v2 := hex.vertices pair.2
    let npair := edgeVertexMap (oppositeDirection d)
    let nv1 := neighbor.vertices npair.1
    let nv2 := neighbor.vertices npair.2
    let b1 := st.positions.length
    let st1 : RGeom :=
      { st with positions := st.positions ++ [v1, v2, nv1]
                triangles := st.triangles ++ [(b1, b1 + 1, b1 + 2)] }
    let b2 := st1.positions.length
    let st2 : RGeom :=
      { st1 with positions := st1.positions ++ [v1, nv1, nv2]
                 triangles := st1.triangles ++ [(b2, b2 + 1, b2 + 2)] }
    match HexGenerator.getNeighbor 16 hex grid (clockwiseDirection d) with
    | none => st2
    | some cwNeighbor =>
      let cid := cornerId hex.gridCoords neighbor.gridCoords
        cwNeighbor.gridCoords
      if cid ∈ st2.corners then st2
      else
        let cwpair := edgeVertexMap (oppositeDirection (clockwiseDirection d))
        let cwv2 := cwNeighbor.vertices cwpair.2
        let b3 := st2.positions.length
        { positions := st2.positions ++ [v2, nv1, cwv2]
          triangles := st2.triangles ++ [(b3, b3 + 1, b3 + 2)]
          corners := st2.corners ++ [cid] }

/-- HexRenderer.createHexGeometry (part_004 lines 72-282): cap fan, then
the three skirt directions SE, S, SW in order. -/
def rendererGeometry (grid : List Hex) (hex : Hex) : RGeom :=
  [SE, S, SW].foldl (rendererStep grid hex) (rendererCap hex)

/-- renderGrid of part_004 lines 456-471 builds one geometry per hex over
the whole grid; this collects every corner id emitted across the build. -/
def rendererBuildCorners (grid : List Hex) : List (List (ℤ × ℤ)) :=
  (grid.map (fun hex => (rendererGeometry grid hex).corners)).flatten

/-- The 2x2 grid of cells (0,0), (1,0), (0,1), (1,1) in the renderGrid
construction order (row-major, column inner). -/
def grid2 : List Hex :=
  [hexAt (0, 0), hexAt (1, 0), hexAt (0, 1), hexAt (1, 1)]

/-- Claim C3 evaluation: over one full mesh build of the 2x2 grid, the
renderer emits 3 corner triangles while only 2 distinct interior corners
exist: the corner {(0,0),(1,0),(0,1)} is emitted twice (once by cell (0,0)
via SE and once by cell (1,0) via SW), because the processedConnections
set is recreated for every cell instead of living for the whole build. -/
theorem corner_dedup_fails :
    (rendererBuildCorners grid2).length = 3 ∧
    (rendererBuildCorners grid2).dedup.length = 2 ∧
    rendererBuildCorners grid2 =
      [[(0, 0), (0, 1), (1, 0)], [(0, 1), (1, 0), (1, 1)],
        [(0, 0), (0, 1), (1, 0)]] := by
  refine ⟨?_, ?_, ?_⟩ <;> decide

/-- Claim C2 (amended): in the grid-lookup renderer build (part_004), a
missing neighbor — in particular one whose coordinates fall outside the
grid — contributes nothing for that direction: no skirt positions, no
triangles, no corner id.  The closed-form part_003 build, in contrast,
never suppresses anything: every cell's geometry carries all three
skirt/corner chunks (15 triangles), including toward off-grid
neighbors. -/
theorem boundary_suppression_split :
    (∀ (grid : List Hex) (hex : Hex) (st : RGeom) (d : Dir),
      HexGenerator.getNeighbor 16 hex grid d = none →
      rendererStep grid hex st d = st) ∧
    (∀ (g : HexGenerator3) (hex : Hex), (g.geometry hex).2.length = 15) := by
  constructor
  · intro grid hex st d hnone
    unfold rendererStep
    rw [hnone]
  · intro g hex
    rfl

/-- Witness for C2's amended theorem: cell (1,1) of the 2x2 grid has its S
neighbor (1,2) absent from the grid, and the step for S adds nothing. -/
theorem boundary_suppression_split_witness :
    HexGenerator.getNeighbor 16 (hexAt (1, 1)) grid2 Dir.S = none ∧
    rendererStep grid2 (hexAt (1, 1)) (rendererCap (hexAt (1, 1))) Dir.S =
      rendererCap (hexAt (1, 1)) :=
  ⟨rfl,
    boundary_suppression_split.1 grid2 (hexAt (1, 1))
      (rendererCap (hexAt (1, 1))) Dir.S rfl⟩

/-- Claim C2 counterexample: in the part_003 build with gridSize 2, the
corner cell (1,1) has its S neighbor (1,2) out of bounds, yet its geometry
still contains 15 triangles (cap 6 plus all three skirt/corner chunks)
instead of the cap-only 6 the claim requires, and the S-direction chunk
contributes its 9 skirt/corner positions toward the off-grid neighbor. -/
theorem boundary_skirt_emitted_cex :
    ¬ coordsInBounds 2 (HexUtils.getNeighborCoords (1, 1) Dir.S) ∧
    ((mkHexGenerator3 jsMathTest perturbTest perturbTest 2 1 (1 / 10)).geometry
        ((mkHexGenerator3 jsMathTest perturbTest perturbTest 2 1 (1 / 10)).cellAt
          (1, 1))).2.length = 15 ∧
    ((mkHexGenerator3 jsMathTest perturbTest perturbTest 2 1 (1 / 10)).skirtChunk
        ((mkHexGenerator3 jsMathTest perturbTest perturbTest 2 1 (1 / 10)).cellAt
          (1, 1)) Dir.S).length = 9 :=
  ⟨by decide, rfl, rfl⟩

/-- The HexUtils constructor (HexUtils.js lines 9-25): plain field
assignments, no parameter validation of any kind. -/
def mkHexUtils (jm : JsMath) (pc : PerturbCtx) (gridSize : ℤ)
    (hexSize hexGap : ℚ) : HexUtilsT :=
  { jsMath := jm, perturbUtils := pc, gridSize, hexSize, hexGap }

/-- The data-structure HexGenerator copy (hexGenerator.js): constructor
state of lines 9-31.  The PerlinNoise instance created with a random seed
(line 26) is abstracted as the pure noise function field; the stored
constants perturbationScale = 0.25 and noiseScale = 0.2 appear as the
literals 1/4 and 1/5 in the functions below (their exact double values are
irrelevant to every property proved about them). -/
structure HexGeneratorJs where
  jsMath : JsMath
  gridSize : ℤ
  hexSize : ℚ
  hexGap : ℚ
  noise : ℚ → ℚ → ℚ

/-- The hexGenerator.js constructor: plain assignments, no validation. -/
def mkHexGenerator (gridSize : ℤ) (hexSize hexGap : ℚ)
    (noise : ℚ → ℚ → ℚ) (jm : JsMath) : HexGeneratorJs :=
  { jsMath := jm, gridSize, hexSize, hexGap, noise }

/-- hexGenerator.js line 15: effectiveSize = hexSize - hexGap. -/
def HexGeneratorJs.effectiveSize (g : HexGeneratorJs) : ℚ :=
  g.hexSize - g.hexGap

/-- HexGenerator.getPerturbation (hexGenerator.js lines 172-185): the
noise-derived (x, y, z) offset vector. -/
def HexGeneratorJs.getPerturbation (g : HexGeneratorJs) (x z : ℚ) : Vec3 :=
  let noiseX := g.noise (x * (1 / 5)) (z * (1 / 5))
  let noiseY := g.noise (x * (1 / 5) + 100) (z * (1 / 5) + 100)
  let noiseZ := g.noise (x * (1 / 5) + 200) (z * (1 / 5) + 200)
  let maxOffset := g.effectiveSize * (1 / 4)
  ⟨(noiseX * 2 - 1) * maxOffset,
   (noiseY * 2 - 1) * maxOffset * (3 / 10),
   (noiseZ * 2 - 1) * maxOffset⟩

/-- HexGenerator.generateHexVertices (hexGenerator.js lines 127-164):
perturbs the center, derives a perturbed elevation from noise, then emits
the six vertices, each with its own perturbation offset. -/
def HexGeneratorJs.generateHexVertices (g : HexGeneratorJs)
    (centerX centerY elevation : ℚ) : List Vec3 :=
  let centerNoise := g.getPerturbation centerX centerY
  let perturbedCenterX := centerX + centerNoise.x
  let perturbedCenterY := centerY + centerNoise.z
  let centerElevationOffset :=
    g.noise (centerX * (1 / 5) * (1 / 2)) (centerY * (1 / 5) * (1 / 2)) * (1 / 5)
  let perturbedElevation := elevation + centerElevationOffset
  (List.finRange 6).map fun i =>
    let baseX := perturbedCenterX + g.effectiveSize * g.jsMath.cosTable i
    let baseZ := perturbedCenterY + g.effectiveSize * g.jsMath.sinTable i
    let perturbation := g.getPerturbation baseX baseZ
    ⟨baseX + perturbation.x, perturbedElevation + perturbation.y,
      baseZ + perturbation.z⟩

/-- One entry of the elevationData array consumed by generateGrid. -/
structure ElevationEntry where
  heightOffset : ℚ
  biomeIndex : ℤ
  featureIndex : ℤ

/-- The hex record pushed by hexGenerator.js generateGrid lines 228-235. -/
structure HexData where
  position : Vec3
  vertices : List Vec3
  elevation : ℚ
  gridCoords : ℤ × ℤ
  biomeIndex : ℤ
  featureIndex : ℤ

/-- HexGenerator.generateGrid (hexGenerator.js lines 192-240): the
row-major double loop over [0, gridSize); a missing elevationData entry
(JS undefined, falsy) defaults elevation and indices to 0. -/
def HexGeneratorJs.generateGrid (g : HexGeneratorJs)
    (elevationData : List ElevationEntry) : List HexData :=
  let hexWidth := 2 * g.effectiveSize
  let hexHeight := g.jsMath.sqrt3 * g.effectiveSize
  let colSpacing := hexWidth * 3 / 4 + g.hexGap
  let rowSpacing := hexHeight + g.hexGap
  (List.range g.gridSize.toNat).flatMap fun row =>
    (List.range g.gridSize.toNat).map fun col =>
      let index := row * g.gridSize.toNat + col
      let elevation := match elevationData.get? index with
        | some e => e.heightOffset
        | none => 0
      let centerX := (col : ℚ) * colSpacing
      let centerY := (row : ℚ) * rowSpacing +
        (((col : ℤ).tmod 2 : ℤ) : ℚ) * (rowSpacing / 2)
      let vertices := g.generateHexVertices centerX centerY elevation
      { position := ⟨centerX, elevation, centerY⟩
        vertices := vertices
        elevation := elevation
        gridCoords := ((col : ℤ), (row : ℤ))
        biomeIndex := match elevationData.get? index with
          | some e => e.biomeIndex
          | none => 0
        featureIndex := match elevationData.get? index with
          | some e => e.featureIndex
          | none => 0 }

/-- Claim C8 counterexample: construction with the claimed-invalid
parameters gridSize = 0, or hexSize = 0 together with hexGap = -1,
SUCCEEDS — the constructors store the parameters unchecked and no
InvalidParameter condition exists anywhere — and the gridSize = 0 instance
goes on to produce the degenerate empty grid. -/
theorem constructor_accepts_invalid_cex :
    (mkHexGenerator 0 1 (1 / 10) (fun _ _ => 0) jsMathTest).gridSize = 0 ∧
    (mkHexGenerator 0 1 (1 / 10) (fun _ _ => 0) jsMathTest).generateGrid []
      = [] ∧
    (mkHexGenerator 4 0 (-1) (fun _ _ => 0) jsMathTest).hexSize = 0 ∧
    (mkHexGenerator 4 0 (-1) (fun _ _ => 0) jsMathTest).hexGap = -1 ∧
    (mkHexUtils jsMathTest perturbTest (-3) 0 (-1)).gridSize = -3 :=
  ⟨rfl, rfl, rfl, rfl, rfl⟩

/-- Claim C8 (amended): construction never fails.  Both constructors are
total functions that store gridSize, hexSize and hexGap exactly as passed,
with no validation and no clamping; a non-positive gridSize then yields an
empty grid from generateGrid (and a positive one never does), rather than
any InvalidParameter error. -/
theorem constructor_total_unvalidated :
    (∀ (gs : ℤ) (hs gap : ℚ) (noise : ℚ → ℚ → ℚ) (jm : JsMath),
      (mkHexGenerator gs hs gap noise jm).gridSize = gs ∧
      (mkHexGenerator gs hs gap noise jm).hexSize = hs ∧
      (mkHexGenerator gs hs gap noise jm).hexGap = gap) ∧
    (∀ (jm : JsMath) (pc : PerturbCtx) (gs : ℤ) (hs gap : ℚ),
      (mkHexUtils jm pc gs hs gap).gridSize = gs ∧
      (mkHexUtils jm pc gs hs gap).hexSize = hs ∧
      (mkHexUtils jm pc gs hs gap).hexGap = gap) ∧
    (∀ (gs : ℤ) (hs gap : ℚ) (noise : ℚ → ℚ → ℚ) (jm : JsMath)
        (data : List ElevationEntry),
      (mkHexGenerator gs hs gap noise jm).generateGrid data = [] ↔ gs ≤ 0) := by
  refine ⟨fun gs hs gap noise jm => ⟨rfl, rfl, rfl⟩,
    fun jm pc gs hs gap => ⟨rfl, rfl, rfl⟩, fun gs hs gap noise jm data => ?_⟩
  unfold HexGeneratorJs.generateGrid
  simp only [List.flatMap_eq_nil_iff, List.map_eq_nil_iff, List.range_eq_nil,
    List.mem_range, mkHexGenerator]
  constructor
  · intro h
    by_contra hgs
    have h0 : 0 < (gs : ℤ).toNat := by omega
    exact absurd (h 0 h0) (by omega)
  · intro h x hx
    omega

section Noise

variable {α : Type} [LinearOrderedField α] [FloorRing α]

/-- PerlinNoise.smootherstep (noise.js lines 32-34): the quintic fade
t·t·t·(t·(t·6 - 15) + 10). -/
def smootherstep (t : α) : α := t * t * t * (t * (t * 6 - 15) + 10)

/-- PerlinNoise.lerp (noise.js lines 37-39). -/
def lerp (a b t : α) : α := a + t * (b - a)

/-- PerlinNoise.dotGridGradient (noise.js lines 42-52) in cache-free form,
with the pure per-lattice-point gradient supplied as the function grad:
the dot product of the distance vector with the lattice gradient. -/
def dotGridGradient (grad : ℤ → ℤ → α × α) (ix iy : ℤ) (x y : α) : α :=
  (x - (ix : α)) * (grad ix iy).1 + (y - (iy : α)) * (grad ix iy).2

/-- PerlinNoise.get (noise.js lines 66-100) in cache-free form: the
computation performed when both caches miss, as a pure function of the
inputs.  Math.floor is Int.floor; the JS literal 0.5 is the exact double
1/2. -/
def pureGet (grad : ℤ → ℤ → α × α) (x y : α) : α :=
  let x0 : ℤ := ⌊x⌋
  let y0 : ℤ := ⌊y⌋
  let x1 : ℤ := x0 + 1
  let y1 : ℤ := y0 + 1
  let sx := smootherstep (x - (x0 : α))
  let sy := smootherstep (y - (y0 : α))
  let n0 := dotGridGradient grad x0 y0 x y
  let n1 := dotGridGradient grad x1 y0 x y
  let ix0 := lerp n0 n1 sx
  let n2 := dotGridGradient grad x0 y1 x y
  let n3 := dotGridGradient grad x1 y1 x y
  let ix1 := lerp n2 n3 sx
  lerp ix0 ix1 sy * (1 / 2) + 1 / 2

/-- The mutable caches of a PerlinNoise instance (noise.js lines 10-11):
this.gradients and this.memory, modelled as association lists with the
newest entry first (JS property assignment overwrites, lookup sees the
latest value).  The string keys ix + "," + iy and x + "," + y are modelled
by the coordinate pairs themselves; for number operands the encoding is
injective. -/
structure NoiseState (α : Type) where
  gradients : List ((ℤ × ℤ) × (α × α))
  memory : List ((α × α) × α)

/-- Association-list lookup, front to back (models JS object property
lookup with latest-assignment-wins). -/
def assocFind {κ β : Type} [DecidableEq κ] : List (κ × β) → κ → Option β
  | [], _ => none
  | (k2, v) :: rest, k => if k = k2 then some v else assocFind rest k

variable [DecidableEq α]

/-- PerlinNoise.getRandomGradient (noise.js lines 15-29) with the cache
threaded: a missing entry (JS !this.gradients[key]; stored gradient
objects are always truthy, so this is a pure presence test) computes the
gradient and stores it. -/
def getRandomGradientS (grad : ℤ → ℤ → α × α) (st : NoiseState α)
    (ix iy : ℤ) : (α × α) × NoiseState α :=
  match assocFind st.gradients (ix, iy) with
  | some g => (g, st)
  | none =>
    let g := grad ix iy
    (g, { st with gradients := ((ix, iy), g) :: st.gradients })

/-- PerlinNoise.dotGridGradient (noise.js lines 42-52) with the gradient
cache threaded. -/
def dotGridGradientS (grad : ℤ → ℤ → α × α) (st : NoiseState α)
    (ix iy : ℤ) (x y : α) : α × NoiseState α :=
  let r := getRandomGradientS grad st ix iy
  ((x - (ix : α)) * r.1.1 + (y - (iy : α)) * r.1.2, r.2)

/-- The body of PerlinNoise.get after the memory-cache test (noise.js
lines 74-99): the four corner dot products evaluated in source order with
the caches threaded, then the interpolation; the result is stored in
this.memory before being returned. -/
def getComputeS (grad : ℤ → ℤ → α × α) (st : NoiseState α) (x y : α) :
    α × NoiseState α :=
  let x0 : ℤ := ⌊x⌋
  let y0 : ℤ := ⌊y⌋
  let x1 : ℤ := x0 + 1
  let y1 : ℤ := y0 + 1
  let sx := smootherstep (x - (x0 : α))
  let sy := smootherstep (y - (y0 : α))
  let r0 := dotGridGradientS grad st x0 y0 x y
  let r1 := dotGridGradientS grad r0.2 x1 y0 x y
  let ix0 := lerp r0.1 r1.1 sx
  let r2 := dotGridGradientS grad r1.2 x0 y1 x y
  let r3 := dotGridGradientS grad r2.2 x1 y1 x y
  let ix1 := lerp r2.1 r3.1 sx
  let result := lerp ix0 ix1 sy * (1 / 2) + 1 / 2
  (result, { r3.2 with memory := ((x, y), result) :: r3.2.memory })

/-- PerlinNoise.get (noise.js lines 66-100) with both caches threaded.
The cache test is the JS truthiness test if (this.memory[key]): a PRESENT
stored value of exactly 0 is falsy and triggers a recomputation (which
also re-stores the value). -/
def getS (grad : ℤ → ℤ → α × α) (st : NoiseState α) (x y : α) :
    α × NoiseState α :=
  match assocFind st.memory (x, y) with
  | some v => if v ≠ 0 then (v, st) else getComputeS grad st x y
  | none => getComputeS grad st x y

/-- Cache validity: every stored gradient is the pure gradient of its key
and every stored memory value is the cache-free result for its key. -/
def NoiseStateOK (grad : ℤ → ℤ → α × α) (st : NoiseState α) : Prop :=
  (∀ k g, (k, g) ∈ st.gradients → g = grad k.1 k.2) ∧
  (∀ p v, (p, v) ∈ st.memory → v = pureGet grad p.1 p.2)

/-- A run of prior get calls from a given state (an arbitrary call
history). -/
def runCalls (grad : ℤ → ℤ → α × α) (st : NoiseState α) :
    List (α × α) → NoiseState α
  | [] => st
  | p :: rest => runCalls grad (getS grad st p.1 p.2).2 rest

theorem assocFind_mem {κ β : Type} [DecidableEq κ] {l : List (κ × β)}
    {k : κ} {v : β} (h : assocFind l k = some v) : (k, v) ∈ l := by
  induction l with
  | nil => simp [assocFind] at h
  | cons a rest ih =>
    obtain ⟨k2, v2⟩ := a
    simp only [assocFind] at h
    split_ifs at h with hk
    · obtain rfl : v2 = v := by simpa using h
      subst hk
      exact List.mem_cons_self _ _
    · exact List.mem_cons_of_mem _ (ih h)

theorem getRandomGradientS_fst (grad : ℤ → ℤ → α × α) (st : NoiseState α)
    (ix iy : ℤ) (hok : NoiseStateOK grad st) :
    (getRandomGradientS grad st ix iy).1 = grad ix iy := by
  unfold getRandomGradientS
  cases hfind : assocFind st.gradients (ix, iy) with
  | none => rfl
  | some g => exact hok.1 (ix, iy) g (assocFind_mem hfind)

theorem getRandomGradientS_ok (grad : ℤ → ℤ → α × α) (st : NoiseState α)
    (ix iy : ℤ) (hok : NoiseStateOK grad st) :
    NoiseStateOK grad (getRandomGradientS grad st ix iy).2 := by
  unfold getRandomGradientS
  cases hfind : assocFind st.gradients (ix, iy) with
  | none =>
    refine ⟨?_, hok.2⟩
    intro k g hmem
    rcases List.mem_cons.1 hmem with heq | hmem2
    · obtain ⟨rfl, rfl⟩ := Prod.mk.injEq .. ▸ heq
      rfl
    · exact hok.1 k g hmem2
  | some g => exact hok

theorem dotGridGradientS_fst (grad : ℤ → ℤ → α × α) (st : NoiseState α)
    (ix iy : ℤ) (x y : α) (hok : NoiseStateOK grad st) :
    (dotGridGradientS grad st ix iy x y).1 =
      dotGridGradient grad ix iy x y := by
  simp only [dotGridGradientS, dotGridGradient,
    getRandomGradientS_fst grad st ix iy hok]

theorem dotGridGradientS_ok (grad : ℤ → ℤ → α × α) (st : NoiseState α)
    (ix iy : ℤ) (x y : α) (hok : NoiseStateOK grad st) :
    NoiseStateOK grad (dotGridGradientS grad st ix iy x y).2 :=
  getRandomGradientS_ok grad st ix iy hok

theorem getComputeS_fst (grad : ℤ → ℤ → α × α) (st : NoiseState α)
    (x y : α) (hok : NoiseStateOK grad st) :
    (getComputeS grad st x y).1 = pureGet grad x y := by
  have s0 := dotGridGradientS_ok grad st ⌊x⌋ ⌊y⌋ x y hok
  have s1 := dotGridGradientS_ok grad
    (dotGridGradientS grad st ⌊x⌋ ⌊y⌋ x y).2 (⌊x⌋ + 1) ⌊y⌋ x y s0
  have s2 := dotGridGradientS_ok grad
    (dotGridGradientS grad (dotGridGradientS grad st ⌊x⌋ ⌊y⌋ x y).2
      (⌊x⌋ + 1) ⌊y⌋ x y).2 ⌊x⌋ (⌊y⌋ + 1) x y s1
  have h0 := dotGridGradientS_fst grad st ⌊x⌋ ⌊y⌋ x y hok
  have h1 := dotGridGradientS_fst grad
    (dotGridGradientS grad st ⌊x⌋ ⌊y⌋ x y).2 (⌊x⌋ + 1) ⌊y⌋ x y s0
  have h2 := dotGridGradientS_fst grad
    (dotGridGradientS grad (dotGridGradientS grad st ⌊x⌋ ⌊y⌋ x y).2
      (⌊x⌋ + 1) ⌊y⌋ x y).2 ⌊x⌋ (⌊y⌋ + 1) x y s1
  have h3 := dotGridGradientS_fst grad
    (dotGridGradientS grad
      (dotGridGradientS grad (dotGridGradientS grad st ⌊x⌋ ⌊y⌋ x y).2
        (⌊x⌋ + 1) ⌊y⌋ x y).2 ⌊x⌋ (⌊y⌋ + 1) x y).2 (⌊x⌋ + 1) (⌊y⌋ + 1) x y s2
  simp only [getComputeS, pureGet, h0, h1, h2, h3]

theorem getComputeS_ok (grad : ℤ → ℤ → α × α) (st : NoiseState α)
    (x y : α) (hok : NoiseStateOK grad st) :
    NoiseStateOK grad (getComputeS grad st x y).2 := by
  have s0 := dotGridGradientS_ok grad st ⌊x⌋ ⌊y⌋ x y hok
  have s1 := dotGridGradientS_ok grad
    (dotGridGradientS grad st ⌊x⌋ ⌊y⌋ x y).2 (⌊x⌋ + 1) ⌊y⌋ x y s0
  have s2 := dotGridGradientS_ok grad
    (dotGridGradientS grad (dotGridGradientS grad st ⌊x⌋ ⌊y⌋ x y).2
      (⌊x⌋ + 1) ⌊y⌋ x y).2 ⌊x⌋ (⌊y⌋ + 1) x y s1
  have s3 := dotGridGradientS_ok grad
    (dotGridGradientS grad
      (dotGridGradientS grad (dotGridGradientS grad st ⌊x⌋ ⌊y⌋ x y).2
        (⌊x⌋ + 1) ⌊y⌋ x y).2 ⌊x⌋ (⌊y⌋ + 1) x y).2 (⌊x⌋ + 1) (⌊y⌋ + 1) x y s2
  have hres := getComputeS_fst grad st x y hok
  constructor
  · exact s3.1
  · intro p v hmem
    simp only [getComputeS, List.mem_cons] at hmem
    rcases hmem with heq | hmem2
    · obtain ⟨hp, hv⟩ := Prod.mk.injEq .. ▸ heq
      subst hp
      subst hv
      simpa [getComputeS] using hres
    · exact s3.2 p v hmem2

theorem getS_fst (grad : ℤ → ℤ → α × α) (st : NoiseState α) (x y : α)
    (hok : NoiseStateOK grad st) :
    (getS grad st x y).1 = pureGet grad x y := by
  unfold getS
  cases hfind : assocFind st.memory (x, y) with
  | none => exact getComputeS_fst grad st x y hok
  | some v =>
    by_cases hv : v ≠ 0
    · simpa [hv] using hok.2 (x, y) v (assocFind_mem hfind)
    · simpa [hv] using getComputeS_fst grad st x y hok

theorem getS_ok (grad : ℤ → ℤ → α × α) (st : NoiseState α) (x y : α)
    (hok : NoiseStateOK grad st) :
    NoiseStateOK grad (getS grad st x y).2 := by
  unfold getS
  cases hfind : assocFind st.memory (x, y) with
  | none => exact getComputeS_ok grad st x y hok
  | some v =>
    by_cases hv : v ≠ 0
    · simpa [hv] using hok
    · simpa [hv] using getComputeS_ok grad st x y hok

theorem runCalls_ok (grad : ℤ → ℤ → α × α) (st : NoiseState α)
    (hist : List (α × α)) (hok : NoiseStateOK grad st) :
    NoiseStateOK grad (runCalls grad st hist) := by
  induction hist generalizing st with
  | nil => exact hok
  | cons p rest ih =>
    exact ih (getS grad st p.1 p.2).2 (getS_ok grad st p.1 p.2 hok)

theorem emptyState_ok (grad : ℤ → ℤ → α × α) :
    NoiseStateOK grad ⟨[], []⟩ := by
  constructor
  · intro k g hmem
    simp at hmem
  · intro p v hmem
    simp at hmem

end Noise

/-- Claim C9: memoization transparency of PerlinNoise.get.  For every pure
gradient function, every prior call history starting from the fresh
instance state (empty caches), and every input (x, y), the cached get
returns exactly the cache-free value — the memo caches, including the
truthiness test that treats a stored value of exactly 0 as a miss, never
alter any returned value. -/
theorem memo_transparency (grad : ℤ → ℤ → ℚ × ℚ) (hist : List (ℚ × ℚ))
    (x y : ℚ) :
    (getS grad (runCalls grad ⟨[], []⟩ hist) x y).1 = pureGet grad x y :=
  getS_fst grad (runCalls grad ⟨[], []⟩ hist) x y
    (runCalls_ok grad ⟨[], []⟩ hist (emptyState_ok grad))

/-- PerlinNoise fract (noise.js lines 61-63): n - Math.floor(n). -/
noncomputable def jsFract (n : ℝ) : ℝ := n - (⌊n⌋ : ℝ)

/-- The PerlinNoise seeded hash (noise.js lines 55-58):
fract(sin(x·12.9898 + y·78.233 + seed) · 43758.5453123).  The JS decimal
literals are modelled by their decimal values. -/
noncomputable def jsRandom (seed x y : ℝ) : ℝ :=
  jsFract (Real.sin (x * 12.9898 + y * 78.233 + seed) * 43758.5453123)

/-- The pure gradient of PerlinNoise.getRandomGradient (noise.js lines
15-29): the unit vector at angle 2π·random(ix, iy). -/
noncomputable def realGradient (seed : ℝ) (ix iy : ℤ) : ℝ × ℝ :=
  let angle := 2 * Real.pi * jsRandom seed (ix : ℝ) (iy : ℝ)
  (Real.cos angle, Real.sin angle)

theorem smootherstep_nonneg {t : ℝ} (h0 : 0 ≤ t) : 0 ≤ smootherstep t := by
  have h2 : (0 : ℝ) < t * (t * 6 - 15) + 10 := by
    nlinarith [sq_nonneg (4 * t - 5)]
  have h1 : (0 : ℝ) ≤ t * t * t := by positivity
  calc (0 : ℝ) ≤ t * t * t * (t * (t * 6 - 15) + 10) :=
        mul_nonneg h1 h2.le
    _ = smootherstep t := rfl

theorem smootherstep_le_one {t : ℝ} (h1 : t ≤ 1) : smootherstep t ≤ 1 := by
  have hc : (0 : ℝ) ≤ (1 - t) * (1 - t) * (1 - t) := by
    have := sub_nonneg.2 h1
    positivity
  have hq : (0 : ℝ) ≤ 6 * t ^ 2 + 3 * t + 1 := by
    nlinarith [sq_nonneg (4 * t + 1)]
  unfold smootherstep
  nlinarith [mul_nonneg hc hq]

theorem smootherstep_half_bound (t : ℝ) :
    0 ≤ (2 * t - 1) * (2 * smootherstep t - 1) := by
  unfold smootherstep
  nlinarith [sq_nonneg ((2 * t - 1) * (t - t * t + 1 / 6)),
    sq_nonneg (2 * t - 1)]

theorem lerp_abs_bound {a b s A B : ℝ} (hs0 : 0 ≤ s) (hs1 : s ≤ 1)
    (ha : |a| ≤ A) (hb : |b| ≤ B) :
    |lerp a b s| ≤ (1 - s) * A + s * B := by
  rw [abs_le] at ha hb ⊢
  unfold lerp
  constructor
  · nlinarith [mul_nonneg hs0 (by linarith [hb.1] : (0 : ℝ) ≤ b + B),
      mul_nonneg (by linarith : (0 : ℝ) ≤ 1 - s)
        (by linarith [ha.1] : (0 : ℝ) ≤ a + A)]
  · nlinarith [mul_nonneg hs0 (by linarith [hb.2] : (0 : ℝ) ≤ B - b),
      mul_nonneg (by linarith : (0 : ℝ) ≤ 1 - s)
        (by linarith [ha.2] : (0 : ℝ) ≤ A - a)]

theorem dot_abs_bound {dx dy gx gy a b : ℝ} (hdx : |dx| ≤ a)
    (hdy : |dy| ≤ b) (hgx : |gx| ≤ 1) (hgy : |gy| ≤ 1) :
    |dx * gx + dy * gy| ≤ a + b := by
  have ha0 : 0 ≤ a := le_trans (abs_nonneg dx) hdx
  have hb0 : 0 ≤ b := le_trans (abs_nonneg dy) hdy
  calc |dx * gx + dy * gy| ≤ |dx * gx| + |dy * gy| := abs_add _ _
    _ = |dx| * |gx| + |dy| * |gy| := by rw [abs_mul, abs_mul]
    _ ≤ a * 1 + b * 1 := by
        have hx := mul_le_mul hdx hgx (abs_nonneg gx) ha0
        have hy := mul_le_mul hdy hgy (abs_nonneg gy) hb0
        linarith
    _ = a + b := by ring

/-- Range bound for the cache-free PerlinNoise.get over the reals, for any
gradient whose components have absolute value at most 1: the fade weights
lie in [0, 1], each corner dot product is bounded by the L1 size of its
offset vector, and the bilinear interpolation of these bounds never
exceeds 1 in absolute value, so the final remap x·0.5 + 0.5 lands in
[0, 1]. -/
theorem pureGet_range (grad : ℤ → ℤ → ℝ × ℝ)
    (hg : ∀ ix iy, |(grad ix iy).1| ≤ 1 ∧ |(grad ix iy).2| ≤ 1)
    (x y : ℝ) : 0 ≤ pureGet grad x y ∧ pureGet grad x y ≤ 1 := by
  have hfx0 : (0 : ℝ) ≤ x - (⌊x⌋ : ℝ) := sub_nonneg.2 (Int.floor_le x)
  have hfx1 : x - (⌊x⌋ : ℝ) ≤ 1 := by
    have := Int.lt_floor_add_one x
    linarith
  have hfy0 : (0 : ℝ) ≤ y - (⌊y⌋ : ℝ) := sub_nonneg.2 (Int.floor_le y)
  have hfy1 : y - (⌊y⌋ : ℝ) ≤ 1 := by
    have := Int.lt_floor_add_one y
    linarith
  have hsx0 := smootherstep_nonneg hfx0
  have hsx1 := smootherstep_le_one hfx1
  have hsy0 := smootherstep_nonneg hfy0
  have hsy1 := smootherstep_le_one hfy1
  have hcast : ∀ n : ℤ, ((n + 1 : ℤ) : ℝ) = (n : ℝ) + 1 := by
    intro n
    push_cast
    ring
  have h00 : |dotGridGradient grad ⌊x⌋ ⌊y⌋ x y| ≤
      (x - (⌊x⌋ : ℝ)) + (y - (⌊y⌋ : ℝ)) :=
    dot_abs_bound (le_of_eq (abs_of_nonneg hfx0))
      (le_of_eq (abs_of_nonneg hfy0)) (hg ⌊x⌋ ⌊y⌋).1 (hg ⌊x⌋ ⌊y⌋).2
  have h10 : |dotGridGradient grad (⌊x⌋ + 1) ⌊y⌋ x y| ≤
      (1 - (x - (⌊x⌋ : ℝ))) + (y - (⌊y⌋ : ℝ)) := by
    unfold dotGridGradient
    rw [hcast ⌊x⌋]
    exact dot_abs_bound
      (by rw [abs_sub_comm]; rw [abs_of_nonneg (by linarith)]; ring_nf; rfl)
      (le_of_eq (abs_of_nonneg hfy0))
      (hg (⌊x⌋ + 1) ⌊y⌋).1 (hg (⌊x⌋ + 1) ⌊y⌋).2
  have h01 : |dotGridGradient grad ⌊x⌋ (⌊y⌋ + 1) x y| ≤
      (x - (⌊x⌋ : ℝ)) + (1 - (y - (⌊y⌋ : ℝ))) := by
    unfold dotGridGradient
    rw [hcast ⌊y⌋]
    exact dot_abs_bound (le_of_eq (abs_of_nonneg hfx0))
      (by rw [abs_sub_comm]; rw [abs_of_nonneg (by linarith)]; ring_nf; rfl)
      (hg ⌊x⌋ (⌊y⌋ + 1)).1 (hg ⌊x⌋ (⌊y⌋ + 1)).2
  have h11 : |dotGridGradient grad (⌊x⌋ + 1) (⌊y⌋ + 1) x y| ≤
      (1 - (x - (⌊x⌋ : ℝ))) + (1 - (y - (⌊y⌋ : ℝ))) := by
    unfold dotGridGradient
    rw [hcast ⌊x⌋, hcast ⌊y⌋]
    exact dot_abs_bound
      (by rw [abs_sub_comm]; rw [abs_of_nonneg (by linarith)]; ring_nf; rfl)
      (by rw [abs_sub_comm]; rw [abs_of_nonneg (by linarith)]; ring_nf; rfl)
      (hg (⌊x⌋ + 1) (⌊y⌋ + 1)).1 (hg (⌊x⌋ + 1) (⌊y⌋ + 1)).2
  have hix0 := lerp_abs_bound hsx0 hsx1 h00 h10
  have hix1 := lerp_abs_bound hsx0 hsx1 h01 h11
  have hpre := lerp_abs_bound hsy0 hsy1 hix0 hix1
  have hAx := smootherstep_half_bound (x - (⌊x⌋ : ℝ))
  have hAy := smootherstep_half_bound (y - (⌊y⌋ : ℝ))
  rw [abs_le] at hpre
  constructor
  · show 0 ≤ lerp (lerp (dotGridGradient grad ⌊x⌋ ⌊y⌋ x y)
        (dotGridGradient grad (⌊x⌋ + 1) ⌊y⌋ x y)
        (smootherstep (x - (⌊x⌋ : ℝ))))
      (lerp (dotGridGradient grad ⌊x⌋ (⌊y⌋ + 1) x y)
        (dotGridGradient grad (⌊x⌋ + 1) (⌊y⌋ + 1) x y)
        (smootherstep (x - (⌊x⌋ : ℝ))))
      (smootherstep (y - (⌊y⌋ : ℝ))) * (1 / 2) + 1 / 2
    nlinarith [hpre.1, hAx, hAy]
  · show lerp (lerp (dotGridGradient grad ⌊x⌋ ⌊y⌋ x y)
        (dotGridGradient grad (⌊x⌋ + 1) ⌊y⌋ x y)
        (smootherstep (x - (⌊x⌋ : ℝ))))
      (lerp (dotGridGradient grad ⌊x⌋ (⌊y⌋ + 1) x y)
        (dotGridGradient grad (⌊x⌋ + 1) (⌊y⌋ + 1) x y)
        (smootherstep (x - (⌊x⌋ : ℝ))))
      (smootherstep (y - (⌊y⌋ : ℝ))) * (1 / 2) + 1 / 2 ≤ 1
    nlinarith [hpre.2, hAx, hAy]

/-- Claim C7: noise determinism and range.  For a fixed construction seed,
PerlinNoise.get behaves as a pure function of (x, y): after any prior call
history from a fresh instance, a call returns exactly the cache-free value
determined by seed and coordinates alone (so identical inputs return
bit-identical results regardless of call order or interleaved calls); and
the returned value lies in [0, 1] for every real input, since the unit
gradients and the fade weights confine the interpolated dot products to
[-1, 1] before the remap. -/
theorem noise_determinism_and_range :
    (∀ (seed : ℝ) (hist : List (ℝ × ℝ)) (x y : ℝ),
      (getS (realGradient seed)
        (runCalls (realGradient seed) ⟨[], []⟩ hist) x y).1 =
      pureGet (realGradient seed) x y) ∧
    (∀ (seed : ℝ) (x y : ℝ),
      0 ≤ pureGet (realGradient seed) x y ∧
      pureGet (realGradient seed) x y ≤ 1) := by
  constructor
  · intro seed hist x y
    exact getS_fst (realGradient seed) _ x y
      (runCalls_ok (realGradient seed) ⟨[], []⟩ hist
        (emptyState_ok (realGradient seed)))
  · intro seed x y
    refine pureGet_range (realGradient seed) ?_ x y
    intro ix iy
    constructor
    · exact Real.abs_cos_le_one _
    · exact Real.abs_sin_le_one _
